import Mathlib

/-!
# Verification of the chat-sessions dashboard

Shallow embedding of `src/pages/messagingInterface.tsx` and
`src/components/snackbar.tsx`: the pagination engine (`fetchSessions`),
the client-side filter (`filteredSessions`), session selection
(`handleSessionClick`), and the snackbar auto-hide timer discipline.

JS machine integers and `Date.getTime()` values are modelled as `Int`
(milliseconds since the epoch); JS strings as Lean `String`; absent JSON
fields as `Option`; the stateful React component as explicit state passing
over a `PageState` record.  Network requests issued by an operation are
returned alongside the new state as the list of page numbers requested,
so "zero network calls" is the statement that this list is empty.
-/

namespace Dashboard

/-- `action: "USER" | "AI"` of a message (messagingInterface.tsx line 20). -/
inductive MsgAction where
  | user
  | ai
deriving DecidableEq

/-- The `Message` interface (messagingInterface.tsx lines 17-22).
`timestamp` is the ISO-8601 string's `Date.getTime()` value in ms. -/
structure Message where
  id : Nat
  content : String
  action : MsgAction
  timestamp : Int
deriving DecidableEq

/-- The `ChatSession` interface (messagingInterface.tsx lines 9-15). -/
structure ChatSession where
  id : Nat
  name : String
  messages : List Message
  message_count : Nat
  role : Option String
deriving DecidableEq

/-- `a.messages[0]?.timestamp || new Date(0)` (lines 56-57, 64-65, 119):
the timestamp of the first (most recent) message, or the epoch when the
session has no messages. -/
def latestTimestamp (s : ChatSession) : Int :=
  match s.messages with
  | [] => 0
  | m :: _ => m.timestamp

/-- The sort comparator of lines 55-59 and 63-67, as the "may come first"
relation: comparator `(a, b) => bLatest - aLatest` is `≤ 0` exactly when
`latestTimestamp b ≤ latestTimestamp a`, i.e. descending recency. -/
def byRecency (a b : ChatSession) : Bool :=
  decide (latestTimestamp b ≤ latestTimestamp a)

/-- `pat` occurs as a contiguous substring of `hay`
(JS `String.prototype.includes` over char lists). -/
def hasInfix (pat : List Char) : List Char → Bool
  | [] => pat.isEmpty
  | c :: rest => pat.isPrefixOf (c :: rest) || hasInfix pat rest

/-- JS `s.toLowerCase()`, as a char list. -/
def lowerChars (s : String) : List Char :=
  s.data.map Char.toLower

/-- `name.toLowerCase().includes(q.toLowerCase())` (line 125). -/
def containsCI (name q : String) : Bool :=
  hasInfix (lowerChars q) (lowerChars name)

/-- The `isWithinDateRange` conjunction of lines 120-122: an unset
(`""`, here `none`) bound is unconstrained, a set bound compares
inclusively against the session's most recent message timestamp. -/
def withinDateRange (s : ChatSession) (startDate endDate : Option Int) : Bool :=
  (match startDate with
   | none => true
   | some d => decide (d ≤ latestTimestamp s)) &&
  (match endDate with
   | none => true
   | some d => decide (latestTimestamp s ≤ d))

/-- `filteredSessions` (messagingInterface.tsx lines 118-128). -/
def filteredSessions (sessions : List ChatSession) (searchQuery : String)
    (startDate endDate : Option Int) : List ChatSession :=
  sessions.filter (fun session =>
    containsCI session.name searchQuery && withinDateRange session startDate endDate)

/-- The retention condition in the spec's words: the name contains the
query case-insensitively (the empty query matches every session), and the
most recent message timestamp (the epoch when there are none) lies within
`[startDate, endDate]` inclusive, an unset bound imposing no constraint. -/
def retainedBySpec (s : ChatSession) (query : String)
    (startDate endDate : Option Int) : Bool :=
  (query == "" || containsCI s.name query) &&
  startDate.all (fun d => decide (d ≤ latestTimestamp s)) &&
  endDate.all (fun d => decide (latestTimestamp s ≤ d))

/-- The component state of `MessagingInterface` (lines 27-40), restricted
to the fields the pagination engine, filter and selection read or write. -/
structure PageState where
  sessions : List ChatSession
  selectedSession : Option Nat
  messages : List Message
  page : Nat
  totalPages : Option Nat
  loading : Bool
  error : Option String
  isSnackbarVisible : Bool
deriving DecidableEq

/-- The initial `useState` values (lines 27-35). -/
def initState : PageState :=
  { sessions := []
    selectedSession := none
    messages := []
    page := 1
    totalPages := none
    loading := false
    error := none
    isSnackbarVisible := false }

/-- `totalPages !== null && page > totalPages` (line 43). -/
def pageExhausted (st : PageState) : Bool :=
  match st.totalPages with
  | some t => decide (t < st.page)
  | none => false

/-- The synchronous prefix of `fetchSessions` (lines 43-47): the guard, the
`setLoading(true)`, and the issuing of the request for page `st.page`; the
second component lists the page numbers requested by this call. -/
def fetchSessionsStart (st : PageState) : PageState × List Nat :=
  if st.loading || pageExhausted st then (st, [])
  else ({ st with loading := true }, [st.page])

/-- The parsed JSON body of a response: `chat_sessions` is `none` when the
field is absent (in which case line 55 throws a `TypeError`), and
`total_pages` is `none` when absent. -/
structure FetchResponse where
  chat_sessions : Option (List ChatSession)
  total_pages : Option Nat
deriving DecidableEq

/-- How the awaited fetch of lines 47-51 came back: `fetchError` covers a
non-2xx status (the thrown `"Failed to fetch sessions. Please try again."`),
transport errors and JSON-parse rejections, each carrying the resulting
error message; `success` carries the parsed body. -/
inductive FetchOutcome where
  | fetchError (msg : String)
  | success (response : FetchResponse)
deriving DecidableEq

/-- `data.total_pages || null` (line 53): a missing (or `0`, falsy) field
becomes `null`. -/
def jsOrNull (tp : Option Nat) : Option Nat :=
  match tp with
  | some n => if n = 0 then none else some n
  | none => none

/-- The message of the `TypeError` thrown at line 55 when
`data.chat_sessions` is absent. -/
def undefinedSortMsg : String := "Cannot read properties of undefined (reading 'sort')"

/-- The continuation of `fetchSessions` after the fetch settles
(lines 48-76): on failure the `catch` records the message and shows the
snackbar; on success lines 53-70 record `total_pages`, sort the page,
merge-and-resort the full list, and advance the page; `finally` clears
`loading`.  The function is total: no error escapes it. -/
def fetchSessionsResolve (st : PageState) (o : FetchOutcome) : PageState :=
  match o with
  | .fetchError msg =>
      { st with error := some msg, isSnackbarVisible := true, loading := false }
  | .success r =>
      let st1 := { st with totalPages := jsOrNull r.total_pages }
      match r.chat_sessions with
      | none =>
          { st1 with error := some undefinedSortMsg, isSnackbarVisible := true,
                     loading := false }
      | some cs =>
          let sortedSessions := cs.mergeSort byRecency
          { st1 with
              sessions := (st.sessions ++ sortedSessions).mergeSort byRecency
              page := st.page + 1
              loading := false }

/-- `handleSessionClick` (lines 97-106); the second component lists the
network requests it issues (the source makes none). -/
def handleSessionClick (st : PageState) (sessionId : Nat) : PageState × List Nat :=
  match st.sessions.find? (fun session => session.id == sessionId) with
  | some selected =>
      ({ st with selectedSession := some sessionId, messages := selected.messages }, [])
  | none => (st, [])

/-- `n` consecutive invocations of `fetchSessions` with no intervening
resolution, accumulating the requests they issued. -/
def loadNextPageIter : Nat → PageState → PageState × List Nat
  | 0, st => (st, [])
  | n + 1, st =>
      let p := fetchSessionsStart st
      let rest := loadNextPageIter n p.1
      (rest.1, p.2 ++ rest.2)

/-- The fetch settled otherwise than with a usable body: a non-2xx /
transport / parse failure, or a body without `chat_sessions`. -/
def failedFetch (o : FetchOutcome) : Prop :=
  match o with
  | .fetchError _ => True
  | .success r => r.chat_sessions = none

end Dashboard

namespace Snackbar

/-- `setTimeout(onClose, 3000)` delay (snackbar.tsx line 21). -/
def autoHideDelay : Nat := 3000

/-- The timer bookkeeping of the `Snackbar` component's effect
(snackbar.tsx lines 19-24) together with the rendered props: `timers` is
the browser's set of live timeouts created by this component, as
(handle, expiry) pairs; `effectTimer` is the handle captured by the
pending `useEffect` cleanup closure, if any. -/
structure State where
  nextId : Nat
  timers : List (Nat × Nat)
  effectTimer : Option Nat
  visible : Bool
  message : String
deriving DecidableEq

/-- Freshly mounted component: no timer scheduled. -/
def init : State :=
  { nextId := 0, timers := [], effectTimer := none, visible := false, message := "" }

/-- The effect cleanup `() => clearTimeout(timer)` (line 22). -/
def cleanup (st : State) : State :=
  match st.effectTimer with
  | some h => { st with timers := st.timers.filter (fun p => !(p.1 == h)), effectTimer := none }
  | none => st

/-- A re-render with props `(msg, vis)`: React runs the previous effect's
cleanup, then the effect body (lines 19-24), which schedules
`setTimeout(onClose, 3000)` when visible. -/
def applyProps (st : State) (msg : String) (vis : Bool) (now : Nat) : State :=
  let c := cleanup st
  if vis then
    { c with timers := c.timers ++ [(st.nextId, now + autoHideDelay)]
             effectTimer := some st.nextId
             nextId := st.nextId + 1
             visible := vis
             message := msg }
  else
    { c with visible := vis, message := msg }

/-- The timeout with handle `h` fires: the browser removes it from the
live set and runs `onClose`, which sets `isVisible` to `false`
(messagingInterface.tsx line 135), after which the effect re-runs. -/
def fireTimer (st : State) (h : Nat) (now : Nat) : State :=
  applyProps { st with timers := st.timers.filter (fun p => !(p.1 == h)) } st.message false now

/-- Unmounting runs the last effect's cleanup. -/
def unmount (st : State) : State :=
  cleanup st

/-- Snackbar states the event loop can actually produce: the mount state,
followed by any interleaving of prop updates and timer firings. -/
inductive Reachable : State → Prop
  | init : Reachable init
  | props {st : State} (msg : String) (vis : Bool) (now : Nat) :
      Reachable st → Reachable (applyProps st msg vis now)
  | fire {st : State} (h now : Nat) :
      Reachable st → h ∈ st.timers.map Prod.fst → Reachable (fireTimer st h now)

/-- The live-timer invariant: either no timeout is live, or exactly one
is, and its handle is the one the pending cleanup holds. -/
def Inv (st : State) : Prop :=
  st.timers = [] ∨ ∃ h e, st.effectTimer = some h ∧ st.timers = [(h, e)]

end Snackbar

namespace Dashboard

theorem hasInfix_nil (hay : List Char) : hasInfix [] hay = true := by
  cases hay <;> rfl

theorem containsCI_empty_query (name : String) : containsCI name "" = true := by
  have h : lowerChars "" = [] := rfl
  rw [containsCI, h, hasInfix_nil]

theorem retain_pointwise (query : String) (startDate endDate : Option Int)
    (s : ChatSession) :
    (containsCI s.name query && withinDateRange s startDate endDate)
      = retainedBySpec s query startDate endDate := by
  unfold retainedBySpec withinDateRange
  by_cases hq : query = ""
  · subst hq
    rw [containsCI_empty_query]
    cases startDate <;> cases endDate <;> simp [Option.all]
  · have hq' : (query == "") = false := by simpa using hq
    rw [hq']
    cases startDate <;> cases endDate <;>
      simp [Option.all, Bool.and_assoc]

/-- C3: a loaded session is retained by the filter iff its name contains
the query case-insensitively (the empty query matches every session) and
its most recent message timestamp (the epoch when it has no messages) lies
within `[startDate, endDate]` inclusive, an unset bound imposing no
constraint; the output preserves the input order (it is a sublist of the
input). -/
theorem filteredSessions_spec (sessions : List ChatSession) (query : String)
    (startDate endDate : Option Int) :
    filteredSessions sessions query startDate endDate =
      sessions.filter (fun s => retainedBySpec s query startDate endDate) ∧
    (filteredSessions sessions query startDate endDate).Sublist sessions := by
  constructor
  · exact List.filter_congr (fun s _ => retain_pointwise query startDate endDate s)
  · exact List.filter_sublist _

/-- C2: at most one fetch is in flight at a time.  An invocation of
`fetchSessions` while `loading` holds returns immediately, issuing no
request and changing no state; and of two consecutive invocations with no
intervening resolution at most one request is issued — exactly one (for
the current page) when the first invocation was able to fetch. -/
theorem fetch_single_flight (st : PageState) :
    (st.loading = true → fetchSessionsStart st = (st, [])) ∧
    ((fetchSessionsStart st).2 ++ (fetchSessionsStart (fetchSessionsStart st).1).2).length ≤ 1 ∧
    (st.loading = false →
      (st.totalPages = none ∨ ∃ t, st.totalPages = some t ∧ st.page ≤ t) →
      (fetchSessionsStart st).2 ++ (fetchSessionsStart (fetchSessionsStart st).1).2
        = [st.page]) := by
  refine ⟨fun h => by simp [fetchSessionsStart, h], ?_, fun hl hg => ?_⟩
  · by_cases h : st.loading || pageExhausted st
    · simp [fetchSessionsStart, h]
    · simp [fetchSessionsStart, h]
  · have hpe : pageExhausted st = false := by
      rcases hg with h | ⟨t, ht, hle⟩
      · simp [pageExhausted, h]
      · simp [pageExhausted, ht]
        omega
    simp [fetchSessionsStart, hl, hpe]

theorem fetch_single_flight_witness :
    (fetchSessionsStart initState).2
        ++ (fetchSessionsStart (fetchSessionsStart initState).1).2 = [initState.page] :=
  (fetch_single_flight initState).2.2 rfl (Or.inl rfl)

/-- C5: once the page cursor exceeds the known total page count, any
number of consecutive `fetchSessions` invocations leaves the state
untouched and issues zero network requests. -/
theorem exhausted_no_requests (st : PageState) (t : Nat) (n : Nat)
    (htot : st.totalPages = some t) (hpage : t < st.page) :
    loadNextPageIter n st = (st, []) := by
  have h1 : fetchSessionsStart st = (st, []) := by
    simp [fetchSessionsStart, pageExhausted, htot, hpage]
  induction n with
  | zero => rfl
  | succ n ih => simp [loadNextPageIter, h1, ih]

def stExhausted : PageState := { initState with totalPages := some 1, page := 2 }

theorem exhausted_no_requests_witness :
    loadNextPageIter 3 stExhausted = (stExhausted, []) :=
  exhausted_no_requests stExhausted 1 3 rfl (by decide)

/-- C10: clicking an id that matches no loaded session leaves the whole
state unchanged and issues no request. -/
theorem click_unknown_id_frame (st : PageState) (sessionId : Nat)
    (h : ∀ s ∈ st.sessions, s.id ≠ sessionId) :
    handleSessionClick st sessionId = (st, []) := by
  have hf : st.sessions.find? (fun session => session.id == sessionId) = none := by
    rw [List.find?_eq_none]
    intro s hs
    simp [h s hs]
  simp [handleSessionClick, hf]

def msgA1 : Message :=
  { id := 1, content := "hello", action := .user, timestamp := 1704449000000 }

def msgA2 : Message :=
  { id := 2, content := "hi there", action := .ai, timestamp := 1704448000000 }

def msgA3 : Message :=
  { id := 3, content := "bye", action := .user, timestamp := 1704447000000 }

def sesAlice : ChatSession :=
  { id := 7, name := "Alice", messages := [msgA1, msgA2, msgA3],
    message_count := 3, role := none }

def stJustAlice : PageState := { initState with sessions := [sesAlice] }

theorem click_unknown_id_frame_witness :
    handleSessionClick stJustAlice 9 = (stJustAlice, []) :=
  click_unknown_id_frame stJustAlice 9 (by decide)

end Dashboard

namespace Dashboard

/-- C1: every failed fetch — non-2xx (the thrown failure message),
transport/parse error, or a body without `chat_sessions` — leaves the
loaded session list and the page cursor unchanged, records a
human-readable error message (the thrown message itself in the non-2xx
case), makes the snackbar visible, and clears the loading flag; the
totality of `fetchSessionsResolve` reflects that the error is caught at
the pagination engine and never rethrown. -/
theorem fetch_failure_frame (st : PageState) (o : FetchOutcome)
    (h : failedFetch o) :
    (fetchSessionsResolve st o).sessions = st.sessions ∧
    (fetchSessionsResolve st o).page = st.page ∧
    (∃ m, (fetchSessionsResolve st o).error = some m) ∧
    (fetchSessionsResolve st o).isSnackbarVisible = true ∧
    (fetchSessionsResolve st o).loading = false ∧
    (∀ msg, o = .fetchError msg → (fetchSessionsResolve st o).error = some msg) := by
  cases o with
  | fetchError msg =>
      refine ⟨rfl, rfl, ⟨msg, rfl⟩, rfl, rfl, fun m hm => ?_⟩
      cases hm
      rfl
  | success r =>
      have hcs : r.chat_sessions = none := h
      refine ⟨?_, ?_, ⟨undefinedSortMsg, ?_⟩, ?_, ?_, fun m hm => by cases hm⟩ <;>
        simp [fetchSessionsResolve, hcs]

theorem fetch_failure_frame_witness :
    (fetchSessionsResolve initState
        (.fetchError "Failed to fetch sessions. Please try again.")).sessions
      = initState.sessions ∧
    (fetchSessionsResolve initState
        (.fetchError "Failed to fetch sessions. Please try again.")).page
      = initState.page ∧
    (∃ m, (fetchSessionsResolve initState
        (.fetchError "Failed to fetch sessions. Please try again.")).error = some m) ∧
    (fetchSessionsResolve initState
        (.fetchError "Failed to fetch sessions. Please try again.")).isSnackbarVisible
      = true ∧
    (fetchSessionsResolve initState
        (.fetchError "Failed to fetch sessions. Please try again.")).loading = false ∧
    (∀ msg, (FetchOutcome.fetchError "Failed to fetch sessions. Please try again.")
        = .fetchError msg →
      (fetchSessionsResolve initState
          (.fetchError "Failed to fetch sessions. Please try again.")).error = some msg) :=
  fetch_failure_frame initState
    (.fetchError "Failed to fetch sessions. Please try again.") trivial

/-- A paging state as it stands after a first successful response that
reported 5 total pages. -/
def stAfterFirst : PageState := { initState with totalPages := some 5, page := 2 }

/-- A later successful response reporting a different total. -/
def secondResponse : FetchResponse := { chat_sessions := some [], total_pages := some 7 }

/-- C6 counterexample: the claim says the total page count is fixed after
the first successful response, but `setTotalPages(data.total_pages || null)`
runs on every success — a later response reporting 7 pages overwrites the
previously recorded 5. -/
theorem totalPages_changes_on_later_fetch :
    stAfterFirst.totalPages = some 5 ∧
    (fetchSessionsResolve stAfterFirst (.success secondResponse)).totalPages = some 7 :=
  ⟨rfl, rfl⟩

/-- C6 amended: the total page count starts unknown and is overwritten on
every successful response from that response's `total_pages` field, a
missing (or `0`, falsy) field resetting it to unknown so paging continues;
failed fetches and the synchronous start of a fetch leave it unchanged. -/
theorem totalPages_follows_every_response (st : PageState) (r : FetchResponse)
    (msg : String) :
    (fetchSessionsResolve st (.success r)).totalPages = jsOrNull r.total_pages ∧
    (fetchSessionsResolve st (.fetchError msg)).totalPages = st.totalPages ∧
    ((fetchSessionsStart st).1).totalPages = st.totalPages ∧
    initState.totalPages = none ∧
    jsOrNull none = none ∧
    jsOrNull (some 0) = none := by
  refine ⟨?_, rfl, ?_, rfl, rfl, rfl⟩
  · cases hcs : r.chat_sessions <;> simp [fetchSessionsResolve, hcs]
  · by_cases h : st.loading || pageExhausted st <;> simp [fetchSessionsStart, h]

theorem byRecency_trans (a b c : ChatSession) :
    byRecency a b = true → byRecency b c = true → byRecency a c = true := by
  simp only [byRecency, decide_eq_true_eq]
  exact fun h1 h2 => le_trans h2 h1

theorem byRecency_total (a b : ChatSession) : byRecency a b || byRecency b a := by
  simp only [byRecency, Bool.or_eq_true, decide_eq_true_eq]
  exact le_total _ _

/-- C4: after every successful fetch the merged session list is sorted in
descending order of each session's most recent message timestamp (a
session with no messages carrying the epoch), whatever the previous list
and the arriving page were, and the page cursor advances by one. -/
theorem merge_sorted_page_advances (st : PageState) (r : FetchResponse)
    (cs : List ChatSession) (h : r.chat_sessions = some cs) :
    List.Sorted (fun a b => latestTimestamp b ≤ latestTimestamp a)
      (fetchSessionsResolve st (.success r)).sessions ∧
    (fetchSessionsResolve st (.success r)).page = st.page + 1 := by
  constructor
  · have hs : (fetchSessionsResolve st (.success r)).sessions
        = (st.sessions ++ cs.mergeSort byRecency).mergeSort byRecency := by
      simp [fetchSessionsResolve, h]
    rw [hs]
    have hp := List.sorted_mergeSort byRecency_trans byRecency_total
      (st.sessions ++ cs.mergeSort byRecency)
    exact hp.imp (fun {a b} hab => by
      simpa only [byRecency, decide_eq_true_eq] using hab)
  · simp [fetchSessionsResolve, h]

def firstResponse : FetchResponse :=
  { chat_sessions := some [sesAlice], total_pages := some 3 }

theorem merge_sorted_page_advances_witness :
    List.Sorted (fun a b => latestTimestamp b ≤ latestTimestamp a)
      (fetchSessionsResolve initState (.success firstResponse)).sessions ∧
    (fetchSessionsResolve initState (.success firstResponse)).page
      = initState.page + 1 :=
  merge_sorted_page_advances initState firstResponse [sesAlice] rfl

/-- C9: the merge step de-duplicates nothing: a successful fetch returning
`cs` grows the loaded list by exactly `cs.length`, and the number of
sessions bearing any given id is the sum of the counts in the old list and
in the fetched page — so an id already loaded and fetched again occurs
twice afterwards. -/
theorem merge_appends_without_dedup (st : PageState) (r : FetchResponse)
    (cs : List ChatSession) (i : Nat) (h : r.chat_sessions = some cs) :
    (fetchSessionsResolve st (.success r)).sessions.length
        = st.sessions.length + cs.length ∧
    (fetchSessionsResolve st (.success r)).sessions.countP (fun s => s.id == i)
        = st.sessions.countP (fun s => s.id == i)
            + cs.countP (fun s => s.id == i) := by
  have hs : (fetchSessionsResolve st (.success r)).sessions
      = (st.sessions ++ cs.mergeSort byRecency).mergeSort byRecency := by
    simp [fetchSessionsResolve, h]
  rw [hs]
  constructor
  · simp
  · rw [(List.mergeSort_perm (st.sessions ++ cs.mergeSort byRecency) byRecency).countP_eq]
    rw [List.countP_append]
    rw [(List.mergeSort_perm cs byRecency).countP_eq]

def stJustAliceDup : PageState := { initState with sessions := [sesAlice] }

theorem merge_appends_without_dedup_witness :
    (fetchSessionsResolve stJustAliceDup (.success firstResponse)).sessions.length
        = stJustAliceDup.sessions.length + [sesAlice].length ∧
    (fetchSessionsResolve stJustAliceDup (.success firstResponse)).sessions.countP
          (fun s => s.id == 7)
        = stJustAliceDup.sessions.countP (fun s => s.id == 7)
            + [sesAlice].countP (fun s => s.id == 7) :=
  merge_appends_without_dedup stJustAliceDup firstResponse [sesAlice] 7 rfl

end Dashboard

namespace Dashboard

theorem find?_id_eq (l : List ChatSession) (sid : Nat) (sel : ChatSession)
    (hmem : sel ∈ l) (hid : sel.id = sid)
    (huniq : ∀ s ∈ l, s.id = sid → s = sel) :
    l.find? (fun s => s.id == sid) = some sel := by
  induction l with
  | nil => cases hmem
  | cons a l ih =>
      by_cases ha : a.id = sid
      · have heq : a = sel := huniq a (List.mem_cons_self a l) ha
        subst heq
        simp [List.find?_cons, ha]
      · have hne : sel ≠ a := fun h => ha (h ▸ hid)
        have hmem' : sel ∈ l := by
          rcases List.mem_cons.mp hmem with h | h
          · exact absurd h hne
          · exact h
        have htail := ih hmem' (fun s hs hsid => huniq s (List.mem_cons_of_mem _ hs) hsid)
        simp [List.find?_cons, ha, htail]

/-- C7: selecting an id borne by exactly one loaded session sets the
selection to that id, copies that session's already-loaded message array
into the message view unchanged, and issues zero network requests. -/
theorem click_resident_session (st : PageState) (sessionId : Nat)
    (sel : ChatSession) (hmem : sel ∈ st.sessions) (hid : sel.id = sessionId)
    (huniq : ∀ s ∈ st.sessions, s.id = sessionId → s = sel) :
    (handleSessionClick st sessionId).1.selectedSession = some sessionId ∧
    (handleSessionClick st sessionId).1.messages = sel.messages ∧
    (handleSessionClick st sessionId).2 = [] := by
  have hf := find?_id_eq st.sessions sessionId sel hmem hid huniq
  simp [handleSessionClick, hf]

theorem click_resident_session_witness :
    (handleSessionClick stJustAlice 7).1.selectedSession = some 7 ∧
    (handleSessionClick stJustAlice 7).1.messages = sesAlice.messages ∧
    (handleSessionClick stJustAlice 7).2 = [] :=
  click_resident_session stJustAlice 7 sesAlice (by decide) (by decide) (by decide)

end Dashboard

namespace Snackbar

theorem cleanup_of_inv {st : State} (h : Inv st) :
    (cleanup st).timers = [] ∧ (cleanup st).effectTimer = none := by
  rcases h with ht | ⟨h0, e0, he, ht⟩
  · unfold cleanup
    split
    · simp [ht]
    · next heq => exact ⟨ht, heq⟩
  · unfold cleanup
    rw [he]
    simp [ht]

theorem applyProps_inv {st : State} (hInv : Inv st) (msg : String) (vis : Bool)
    (now : Nat) :
    Inv (applyProps st msg vis now) ∧
    (vis = true →
      (applyProps st msg vis now).timers = [(st.nextId, now + autoHideDelay)]) ∧
    (vis = false → (applyProps st msg vis now).timers = []) := by
  have hc := cleanup_of_inv hInv
  unfold applyProps
  cases vis with
  | true =>
      refine ⟨Or.inr ⟨st.nextId, now + autoHideDelay, ?_, ?_⟩, fun _ => ?_,
        fun hf => nomatch hf⟩ <;> simp [hc.1]
  | false =>
      refine ⟨Or.inl ?_, ⟨fun ht => absurd ht Bool.false_ne_true, fun _ => ?_⟩⟩ <;>
        simp [hc.1]

theorem inv_filter (st : State) (hdl : Nat) (hInv : Inv st) :
    Inv { st with timers := st.timers.filter (fun p => !(p.1 == hdl)) } := by
  rcases hInv with ht | ⟨h0, e0, he, ht⟩
  · exact Or.inl (by simp [ht])
  · by_cases hh : h0 = hdl
    · exact Or.inl (by simp [ht, hh])
    · exact Or.inr ⟨h0, e0, by simp [he], by simp [ht, hh]⟩

theorem reachable_inv {st : State} (h : Reachable st) : Inv st := by
  induction h with
  | init => exact Or.inl rfl
  | props msg vis now _ ih => exact (applyProps_inv ih msg vis now).1
  | fire hdl now hst hmem ih =>
      exact (applyProps_inv (inv_filter _ hdl ih) _ false now).1

/-- C8: the snackbar's auto-hide timer discipline, over every state the
event loop can produce.  At most one auto-hide timeout is ever live; after
unmount none is; any re-render that shows the notification (visibility on)
cancels whatever was pending and leaves exactly one fresh timeout due the
full 3000 ms later — so a second show within the window resets the delay;
and when a live timeout fires, the notification hides and no timeout
remains, so the auto-hide happens exactly once. -/
theorem snackbar_timer_discipline (st : State) (msg : String)
    (hdl now now2 : Nat) (h : Reachable st) :
    st.timers.length ≤ 1 ∧
    (unmount st).timers = [] ∧
    (applyProps st msg true now).timers = [(st.nextId, now + 3000)] ∧
    (hdl ∈ st.timers.map Prod.fst →
      (fireTimer st hdl now2).visible = false ∧
      (fireTimer st hdl now2).timers = []) := by
  have hInv := reachable_inv h
  refine ⟨?_, (cleanup_of_inv hInv).1, (applyProps_inv hInv msg true now).2.1 rfl,
    fun _ => ⟨rfl, ?_⟩⟩
  · rcases hInv with ht | ⟨h0, e0, he, ht⟩ <;> simp [ht]
  · exact (applyProps_inv (inv_filter st hdl hInv) st.message false now2).2.2 rfl

/-- The state right after the snackbar is first shown at time 0. -/
def shownState : State :=
  applyProps init "Failed to fetch sessions. Please try again." true 0

theorem snackbar_timer_discipline_witness :
    shownState.timers.length ≤ 1 ∧
    (unmount shownState).timers = [] ∧
    (applyProps shownState "again" true 500).timers
        = [(shownState.nextId, 500 + 3000)] ∧
    (0 ∈ shownState.timers.map Prod.fst →
      (fireTimer shownState 0 3000).visible = false ∧
      (fireTimer shownState 0 3000).timers = []) :=
  snackbar_timer_discipline shownState "again" 0 500 3000
    (Reachable.props _ _ _ Reachable.init)

end Snackbar
